import Mathlib

/-!
Verification of the transport bridge and event-dispatch layer of
`whatsapp-rust-node` (files `src/bot.ts`, `src/main.ts`).

The bridge (`src/bot.ts`, class `WaBot`) mediates between an external
protocol engine (the Rust native addon, external to this layer) and a
WebSocket channel.  Its mutable state is the pair
`isWsOpen : boolean` / `outgoingFrameQueue : Buffer[]` together with the
presence of the WebSocket object `this.ws`.  We embed it as a state
machine: each externally triggered entry point (the engine's frame
callback, the channel's `open` / `message` / `close` handlers, and
`connectWebSocket`) becomes an `Action`, and `step` returns the updated
state together with the ordered list of observable calls the handler
makes (`ws.send`, `notifyConnected`, `notifyDisconnected`,
`receiveFrame`, `emit("error", ...)`).

The event dispatcher (the event callback of `src/bot.ts` and the
`Message` handling of `src/main.ts`) is embedded as pure functions on
parsed JSON values; the platform builtins it calls (`JSON.parse`,
`EventEmitter.emit`, `String.prototype.toLowerCase` / `trim`) are
external to the repository and are embedded by their documented
semantics, with `JSON.parse`'s result passed in as an explicit
argument.

Frames are opaque byte sequences; we model a byte as a `Nat`.
-/

namespace WaBot

/-- A transport frame: an opaque byte sequence (JS `Buffer`). -/
abbrev Frame := List Nat

/-- The mutable state of the `WaBot` bridge (`src/bot.ts`):
`hasWs` models `this.ws !== null` (set by `connectWebSocket`),
`isWsOpen` is the field of the same name, and `queue` is
`this.outgoingFrameQueue`. -/
structure BotState where
  hasWs : Bool
  isWsOpen : Bool
  queue : List Frame
deriving DecidableEq, Repr

/-- The externally triggered entry points of the bridge:
`connect` is `connectWebSocket` assigning `this.ws`;
`produceFrame err f` is the engine invoking the frame callback;
`chanOpen`, `chanMessage`, `chanClose` are the WebSocket's
`open`, `message` and `close` events. -/
inductive Action where
  | connect
  | produceFrame (err : Bool) (f : Frame)
  | chanOpen
  | chanMessage (b : Frame)
  | chanClose
deriving DecidableEq, Repr

/-- Observable calls made by the bridge's handlers:
`wsSend` is `this.ws.send(frame)`, `notifyConnected` /
`notifyDisconnected` / `receiveFrame` are the corresponding calls into
the engine, and `emitFrameError` is `this.emit("error", err)` from the
frame callback's error branch. -/
inductive Out where
  | wsSend (f : Frame)
  | notifyConnected
  | notifyDisconnected
  | receiveFrame (b : Frame)
  | emitFrameError
deriving DecidableEq, Repr

/-- One handler invocation of the bridge (`src/bot.ts`):

* frame callback (lines 44-55): on error, emit `"error"` and return;
  otherwise send directly when `this.isWsOpen && this.ws`, else push
  onto `outgoingFrameQueue`;
* `ws.on("open")` (lines 68-79): set `isWsOpen`, shift-and-send every
  queued frame in FIFO order (each send guarded by `frame && this.ws`;
  a `Buffer` is always truthy), then call `notifyConnected`;
* `ws.on("message")` (lines 81-83): forward the bytes to
  `receiveFrame` unchanged;
* `ws.on("close")` (lines 85-88): clear `isWsOpen`, call
  `notifyDisconnected`;
* `connectWebSocket` assigning `this.ws` (line 60). -/
def step (s : BotState) : Action → BotState × List Out
  | .connect => ({ s with hasWs := true }, [])
  | .produceFrame err f =>
      if err then (s, [.emitFrameError])
      else if s.isWsOpen && s.hasWs then (s, [.wsSend f])
      else ({ s with queue := s.queue ++ [f] }, [])
  | .chanOpen =>
      ({ s with isWsOpen := true, queue := [] },
       (if s.hasWs then s.queue.map Out.wsSend else []) ++ [.notifyConnected])
  | .chanMessage b => (s, [.receiveFrame b])
  | .chanClose => ({ s with isWsOpen := false }, [.notifyDisconnected])

/-- Run a sequence of handler invocations, concatenating their
observable outputs in order. -/
def run (s : BotState) : List Action → BotState × List Out
  | [] => (s, [])
  | a :: as =>
      let p := step s a
      let q := run p.1 as
      (q.1, p.2 ++ q.2)

/-- Which actions can actually occur in a given state: the WebSocket's
own `open` / `message` / `close` events can only fire once the
WebSocket object exists. -/
def validAction (s : BotState) : Action → Bool
  | .chanOpen => s.hasWs
  | .chanMessage _ => s.hasWs
  | .chanClose => s.hasWs
  | _ => true

/-- States reachable from the freshly constructed bridge
(`ws = null`, `isWsOpen = false`, empty queue) by valid handler
invocations. -/
inductive Reachable : BotState → Prop where
  | init : Reachable ⟨false, false, []⟩
  | next {s : BotState} {a : Action} :
      Reachable s → validAction s a = true → Reachable (step s a).1

/-- Projection of bridge outputs onto `receiveFrame` calls. -/
def recvData : Out → Option Frame
  | .receiveFrame b => some b
  | _ => none

/-- Projection of actions onto the bytes delivered by the channel's
`message` events. -/
def msgData : Action → Option Frame
  | .chanMessage b => some b
  | _ => none

/-- Projection of bridge outputs onto lifecycle notifications:
`notifyConnected ↦ true`, `notifyDisconnected ↦ false`. -/
def notifyData : Out → Option Bool
  | .notifyConnected => some true
  | .notifyDisconnected => some false
  | _ => none

/-- Projection of actions onto channel lifecycle signals:
`chanOpen ↦ true`, `chanClose ↦ false`. -/
def sigData : Action → Option Bool
  | .chanOpen => some true
  | .chanClose => some false
  | _ => none

/-- `altB e l` holds when `l` alternates `e, !e, e, ...` starting
with `e`. -/
def altB : Bool → List Bool → Bool
  | _, [] => true
  | e, b :: t => b == e && altB (!e) t

/-- A parsed JSON value: the possible results of the JavaScript
builtin `JSON.parse`.  `JSON.parse` is external to the repository, so
the embedded event callback receives its result as an explicit
argument. -/
inductive JsonValue where
  | jnull
  | jbool (b : Bool)
  | jnum (n : Int)
  | jstr (s : String)
  | jarr (elems : List JsonValue)
  | jobj (fields : List (String × JsonValue))

/-- JavaScript truthiness of a parsed JSON value (the `if (event.type)`
test): `null`, `false`, `0`, and `""` are falsy; objects and arrays
are truthy. -/
def jsTruthy : JsonValue → Bool
  | .jnull => false
  | .jbool b => b
  | .jnum n => n != 0
  | .jstr s => s != ""
  | .jarr _ => true
  | .jobj _ => true

/-- Property lookup on the field list of a parsed JSON object;
`none` models JavaScript `undefined`. -/
def lookupField : List (String × JsonValue) → String → Option JsonValue
  | [], _ => none
  | (k, v) :: t, key => if k = key then some v else lookupField t key

/-- Property access `ev[key]` on a parsed JSON value; on anything that
is not an object the result is `undefined` (`none`).  Access on `null`
throws instead and is handled separately in `dispatchParsed`. -/
def getField : JsonValue → String → Option JsonValue
  | .jobj fields, key => lookupField fields key
  | _, _ => none

/-- The errors the event callback can emit on the `"error"` channel:
the engine's own error object forwarded verbatim, or a fresh
`new Error(msg)`. -/
inductive JsErr where
  | fromEngine
  | jsError (msg : String)

/-- Observable emissions of the event callback:
`emitError e` is `this.emit("error", e)`;
`emitEvent tag data` is `this.emit(event.type, event.data)`;
`emitUnknown ev` is `this.emit("unknown_event", event)`. -/
inductive EvOut where
  | emitError (e : JsErr)
  | emitEvent (tag : JsonValue) (data : Option JsonValue)
  | emitUnknown (ev : JsonValue)

/-- Routing of a successfully parsed event value (`src/bot.ts` lines
31-36): accessing `.type` on `null` throws a `TypeError`, which the
surrounding `catch` turns into the parse-failure error; otherwise a
truthy `event.type` is emitted as the tag with `event.data` as
payload, and a falsy or absent `type` routes the whole value to
`"unknown_event"`. -/
def dispatchParsed (s : String) : JsonValue → List EvOut
  | .jnull => [.emitError (.jsError ("Failed to parse event JSON: " ++ s))]
  | ev =>
    match getField ev "type" with
    | some t =>
      if jsTruthy t then [.emitEvent t (getField ev "data")]
      else [.emitUnknown ev]
    | none => [.emitUnknown ev]

/-- The event callback of `src/bot.ts` (lines 18-43): forward an
engine error to `"error"`; report a null or empty payload to
`"error"`; report a payload `JSON.parse` rejects to `"error"` with the
raw payload attached; otherwise route the parsed value.  `parsed` is
the result `JSON.parse` would give on the payload: `.error ()` when it
would throw, `.ok v` otherwise. -/
def eventCallback (err : Bool) (eventJson : Option String)
    (parsed : Except Unit JsonValue) : List EvOut :=
  if err then [.emitError .fromEngine]
  else
    match eventJson with
    | none => [.emitError (.jsError "Received an empty event string from Rust.")]
    | some s =>
      if s = "" then
        [.emitError (.jsError "Received an empty event string from Rust.")]
      else
        match parsed with
        | .error _ => [.emitError (.jsError ("Failed to parse event JSON: " ++ s))]
        | .ok ev => dispatchParsed s ev

/-- One engine event notification: error indicator, payload, and the
result `JSON.parse` would give on that payload. -/
structure Notif where
  err : Bool
  payload : Option String
  parsed : Except Unit JsonValue

/-- Dispatch of a sequence of notifications; the callback keeps no
state between notifications. -/
def dispatchSeq (ns : List Notif) : List (List EvOut) :=
  ns.map fun n => eventCallback n.err n.payload n.parsed

/-- The `JSON.parse` result of a payload carrying the unrecognized tag
`"NewTag"`. -/
def c4event : JsonValue := .jobj [("type", .jstr "NewTag"), ("data", .jnum 7)]

/-- The raw payload text for `c4event`. -/
def c4payload : String := "\x7b\"type\":\"NewTag\",\"data\":7\x7d"

/-- Node's `EventEmitter.emit` on the listener list of one event name
(used by `this.emit(event.type, event.data)` in `src/bot.ts`):
listeners run synchronously in registration order; a listener that
throws aborts the loop and the exception propagates out of `emit`.
Handlers are abstract; `fails h = true` models handler `h` throwing.
Returns the handlers actually invoked, in order, and whether an
exception escaped `emit`. -/
def emitRun {α : Type} (fails : α → Bool) : List α → List α × Bool
  | [] => ([], false)
  | h :: t =>
    if fails h then ([h], true)
    else
      let r := emitRun fails t
      (h :: r.1, r.2)

/-- A WhatsApp identifier as delivered in event payloads: a
user/server pair whose canonical string form is `user@server`. -/
structure Jid where
  user : String
  server : String
deriving DecidableEq, Repr

/-- The `source` field of a message's info: originating chat and
sender. -/
structure MsgSource where
  chat : Jid
  sender : Jid
deriving DecidableEq, Repr

/-- The `info` field of a `Message` event payload. -/
structure MessageInfo where
  source : MsgSource
deriving DecidableEq, Repr

/-- One `sendMessage(jid, text)` call made by a handler. -/
structure SendCall where
  jid : String
  text : String
deriving DecidableEq, Repr

/-- Whitespace as trimmed by JavaScript `String.prototype.trim`
(ASCII subset sufficient for the payloads modelled here). -/
def jsIsSpace (c : Char) : Bool :=
  c == ' ' || c == '\t' || c == '\n' || c == '\r'

/-- JavaScript `String.prototype.toLowerCase`, a platform builtin,
modelled character-wise (ASCII case mapping). -/
def jsToLower (s : String) : String := ⟨s.data.map Char.toLower⟩

/-- JavaScript `String.prototype.trim`, a platform builtin: strip
leading and trailing whitespace. -/
def jsTrim (s : String) : String :=
  ⟨((s.data.dropWhile jsIsSpace).reverse.dropWhile jsIsSpace).reverse⟩

/-- The `Message` branch of the example's event callback
(`src/main.ts` lines 54-87): let `text` be
`textContent || "<Media>"`; when `text.toLowerCase().trim()` equals
`"ping"`, make exactly one `sendMessage(chatJidString, "pong!")` call,
where `chatJidString` is `user@server` of `info.source.chat`. -/
def messageHandler (info : MessageInfo) (textContent : Option String) :
    List SendCall :=
  let text := match textContent with
    | some t => if t = "" then "<Media>" else t
    | none => "<Media>"
  if jsTrim (jsToLower text) = "ping" then
    [⟨info.source.chat.user ++ "@" ++ info.source.chat.server, "pong!"⟩]
  else []

/-- Bridge invariant maintained by every valid handler invocation:
whenever `isWsOpen` is set, the WebSocket object exists and the
outgoing frame queue is empty. -/
theorem reachable_inv {s : BotState} (hs : Reachable s) :
    s.isWsOpen = true → s.hasWs = true ∧ s.queue = [] := by
  induction hs with
  | init => intro h; exact absurd h (by simp)
  | @next s a hr hv ih =>
    obtain ⟨w, o, q⟩ := s
    cases a with
    | connect => intro h; exact ⟨rfl, (ih h).2⟩
    | produceFrame err f =>
      cases err with
      | true => exact ih
      | false =>
        cases o with
        | false => intro h; simp [step] at h
        | true =>
          cases w with
          | true => exact ih
          | false => intro _; exact absurd (ih rfl).1 (by simp)
    | chanOpen =>
      intro _
      refine ⟨?_, rfl⟩
      simpa [validAction] using hv
    | chanMessage b => exact ih
    | chanClose => intro h; simp [step] at h

/-- C9: In every reachable state, an open connection flag implies an
empty frame queue; the open-transition flush leaves the queue empty;
and while open, a produced frame bypasses the queue and goes straight
to the channel. -/
theorem open_implies_queue_empty {s : BotState} (hs : Reachable s) :
    (s.isWsOpen = true → s.queue = []) ∧
    (step s .chanOpen).1.queue = [] ∧
    (s.isWsOpen = true → ∀ f : Frame,
      (step s (.produceFrame false f)).1 = s ∧
      (step s (.produceFrame false f)).2 = [.wsSend f]) := by
  refine ⟨fun h => (reachable_inv hs h).2, rfl, ?_⟩
  intro h f
  have hw := (reachable_inv hs h).1
  constructor <;> simp [step, h, hw]

theorem open_implies_queue_empty_witness :
    (⟨true, true, []⟩ : BotState).queue = [] ∧
    (step (⟨true, true, []⟩ : BotState) (.produceFrame false [7])).2
      = [.wsSend [7]] := by
  have hreach : Reachable (⟨true, true, []⟩ : BotState) :=
    Reachable.next (Reachable.next Reachable.init (a := .connect) rfl)
      (a := .chanOpen) rfl
  have h := open_implies_queue_empty hreach
  exact ⟨h.1 rfl, (h.2.2 rfl [7]).2⟩

/-- C3: A frame produced without error is handed to the channel exactly
when the connection is open, otherwise appended to the queue; after a
close transition the flag is down and subsequently produced frames
enter the queue again. -/
theorem frame_callback_routing {s : BotState} (hs : Reachable s) (f : Frame) :
    (s.isWsOpen = true →
      step s (.produceFrame false f) = (s, [.wsSend f])) ∧
    (s.isWsOpen = false →
      step s (.produceFrame false f)
        = ({ s with queue := s.queue ++ [f] }, [])) ∧
    (step s .chanClose).1.isWsOpen = false ∧
    (step (step s .chanClose).1 (.produceFrame false f))
      = ({ s with isWsOpen := false, queue := s.queue ++ [f] }, []) := by
  refine ⟨?_, ?_, rfl, ?_⟩
  · intro h
    have hw := (reachable_inv hs h).1
    simp [step, h, hw]
  · intro h
    simp [step, h]
  · simp [step]

theorem frame_callback_routing_witness :
    step (⟨true, true, []⟩ : BotState) (.produceFrame false [5])
      = (⟨true, true, []⟩, [.wsSend [5]]) := by
  have hreach : Reachable (⟨true, true, []⟩ : BotState) :=
    Reachable.next (Reachable.next Reachable.init (a := .connect) rfl)
      (a := .chanOpen) rfl
  exact (frame_callback_routing hreach [5]).1 rfl

/-- C10: The frame callback's error branch emits the error on the
`error` channel and changes nothing: the frame is neither sent nor
queued, and the queue and connection flag are untouched. -/
theorem frame_callback_error_branch (s : BotState) (f : Frame) :
    step s (.produceFrame true f) = (s, [.emitFrameError]) := by
  simp [step]

/-- Producing frames while the channel is closed only appends them to
the queue; the subsequent `open` handler then sends the queued prefix
followed by nothing else before `notifyConnected`. -/
theorem run_closed_produce_open (fs q : List Frame) (rest : List Action) :
    run ⟨true, false, q⟩
        (fs.map (Action.produceFrame false) ++ Action.chanOpen :: rest)
      = ((run ⟨true, true, []⟩ rest).1,
         (q ++ fs).map Out.wsSend ++
           Out.notifyConnected :: (run ⟨true, true, []⟩ rest).2) := by
  induction fs generalizing q with
  | nil => simp [run, step]
  | cons f fs ih =>
    simp only [List.map_cons, List.cons_append, run, step]
    simpa [List.append_assoc] using ih (q ++ [f])

/-- C1: Frames produced while the connection is not open are delivered
by the open-transition flush exactly once, in production order, before
`notifyConnected` and before any output of actions that follow the open
signal. -/
theorem queued_frames_flushed_fifo (fs : List Frame) (rest : List Action) :
    (run ⟨true, false, []⟩
        (fs.map (Action.produceFrame false) ++ Action.chanOpen :: rest)).2
      = fs.map Out.wsSend ++
          Out.notifyConnected :: (run ⟨true, true, []⟩ rest).2 := by
  simpa using congrArg Prod.snd (run_closed_produce_open fs [] rest)

/-- Generic trace-projection lemma: if every single handler invocation's
outputs project under `g` to exactly the projection under `h` of its
triggering action, the same holds for whole runs. -/
theorem run_filterMap {β : Type} (g : Out → Option β) (h : Action → Option β)
    (hstep : ∀ s a, ((step s a).2).filterMap g = (h a).toList) :
    ∀ (s : BotState) (as : List Action),
      ((run s as).2).filterMap g = as.filterMap h := by
  intro s as
  induction as generalizing s with
  | nil => simp [run]
  | cons a as ih =>
    simp only [run, List.filterMap_append, hstep, ih, List.filterMap_cons]
    cases h a <;> simp

/-- C6: Over any run, the `receiveFrame` calls into the engine are
exactly the byte sequences received on the channel, byte-for-byte
identical, one call per receipt, in receipt order. -/
theorem inbound_relay_exact (s : BotState) (as : List Action) :
    ((run s as).2).filterMap recvData = as.filterMap msgData := by
  refine run_filterMap recvData msgData ?_ s as
  intro s a
  cases a with
  | connect => simp [step, msgData]
  | produceFrame err f =>
    cases err <;> by_cases h : (s.isWsOpen && s.hasWs) = true <;>
      simp [step, recvData, msgData, h]
  | chanOpen =>
    cases h : s.hasWs <;>
      simp [step, recvData, msgData, h, List.filterMap_map, Function.comp]
  | chanMessage b => simp [step, recvData, msgData]
  | chanClose => simp [step, recvData, msgData]

/-- C2: Over any run, the lifecycle notifications into the engine are
exactly one `notifyConnected` per channel open signal and one
`notifyDisconnected` per channel close signal, in signal order; the
open handler issues `notifyConnected` only after the queued-frame flush
(its sends precede the notification in its output); and whenever the
channel's open/close signals alternate starting with open, the two
notifications strictly alternate starting with `notifyConnected`. -/
theorem notify_per_transition :
    (∀ (s : BotState) (as : List Action),
        ((run s as).2).filterMap notifyData = as.filterMap sigData) ∧
    (∀ (b : Bool) (q : List Frame),
        (step ⟨true, b, q⟩ .chanOpen).2
          = q.map Out.wsSend ++ [Out.notifyConnected]) ∧
    (∀ (s : BotState) (as : List Action),
        altB true (as.filterMap sigData) = true →
        altB true (((run s as).2).filterMap notifyData) = true) := by
  have hstep : ∀ s a, ((step s a).2).filterMap notifyData = (sigData a).toList := by
    intro s a
    cases a with
    | connect => simp [step, sigData]
    | produceFrame err f =>
      cases err <;> by_cases h : (s.isWsOpen && s.hasWs) = true <;>
        simp [step, notifyData, sigData, h]
    | chanOpen =>
      cases h : s.hasWs <;>
        simp [step, notifyData, sigData, h, List.filterMap_map, Function.comp]
    | chanMessage b => simp [step, notifyData, sigData]
    | chanClose => simp [step, notifyData, sigData]
  have hproj := run_filterMap notifyData sigData hstep
  refine ⟨hproj, ?_, ?_⟩
  · intro b q
    simp [step]
  · intro s as h
    rw [hproj]
    exact h

theorem notify_per_transition_witness :
    altB true
      (((run ⟨true, false, []⟩ [Action.chanOpen, Action.chanClose]).2).filterMap
        notifyData) = true :=
  notify_per_transition.2.2 ⟨true, false, []⟩
    [Action.chanOpen, Action.chanClose] (by decide)

/-- C7: A non-empty payload that is not valid JSON raises no fault:
the callback reports it on the `"error"` channel with the raw payload
attached, and the dispatcher remains operable — subsequent
notifications dispatch exactly as they would on their own. -/
theorem malformed_payload_reported (s : String) (hs : s ≠ "") :
    eventCallback false (some s) (.error ())
      = [.emitError (.jsError ("Failed to parse event JSON: " ++ s))] ∧
    ∀ ns : List Notif,
      dispatchSeq (⟨false, some s, .error ()⟩ :: ns)
        = [.emitError (.jsError ("Failed to parse event JSON: " ++ s))]
            :: dispatchSeq ns := by
  have h1 : eventCallback false (some s) (.error ())
      = [.emitError (.jsError ("Failed to parse event JSON: " ++ s))] := by
    simp [eventCallback, hs]
  exact ⟨h1, fun ns => by simp [dispatchSeq, h1]⟩

theorem malformed_payload_reported_witness :
    eventCallback false (some "oops") (.error ())
      = [.emitError (.jsError ("Failed to parse event JSON: " ++ "oops"))] :=
  (malformed_payload_reported "oops" (by decide)).1

/-- C4 counterexample: an event whose tag `"NewTag"` is outside the
closed variant set is emitted under `"NewTag"` itself; it is not
decoded into, nor dispatched under, the catch-all `"Other"`. -/
theorem unknown_tag_not_other :
    eventCallback false (some c4payload) (.ok c4event)
      = [.emitEvent (.jstr "NewTag") (some (.jnum 7))] ∧
    (JsonValue.jstr "NewTag") ≠ (JsonValue.jstr "Other") := by
  refine ⟨rfl, fun h => absurd (JsonValue.jstr.inj h) (by decide)⟩

/-- C4 amended: the dispatcher dispatches an event whose (truthy,
string) tag lies outside the closed variant set under that tag string
itself, with the event's `data` field as payload, without failing; no
mapping to `Other` happens in this layer. -/
theorem unknown_tag_dispatched_as_itself (t s : String)
    (fields : List (String × JsonValue))
    (hs : s ≠ "") (ht : t ≠ "")
    (_hnot : t ∉ ["PairingQrCode", "Message", "Connected", "LoggedOut",
                  "SerializationError"])
    (hty : lookupField fields "type" = some (.jstr t)) :
    eventCallback false (some s) (.ok (.jobj fields))
      = [.emitEvent (.jstr t) (getField (.jobj fields) "data")] := by
  simp [eventCallback, hs, dispatchParsed, getField, hty, jsTruthy, ht]

theorem unknown_tag_dispatched_as_itself_witness :
    eventCallback false (some c4payload)
        (.ok (.jobj [("type", .jstr "NewTag"), ("data", .jnum 7)]))
      = [.emitEvent (.jstr "NewTag")
          (getField (.jobj [("type", .jstr "NewTag"), ("data", .jnum 7)])
            "data")] :=
  unknown_tag_dispatched_as_itself "NewTag" c4payload
    [("type", .jstr "NewTag"), ("data", .jnum 7)]
    (by decide) (by decide) (by decide) rfl

/-- C5 counterexample: with two handlers registered for a tag and the
first one throwing, `emit` invokes only the first handler — the second
is never invoked — and the exception escapes, refuting per-handler
isolation. -/
theorem handler_failure_not_isolated :
    (emitRun (fun b : Bool => b) [true, false]).1 = [true] ∧
    (emitRun (fun b : Bool => b) [true, false]).1 ≠ [true, false] ∧
    (emitRun (fun b : Bool => b) [true, false]).2 = true := by
  decide

/-- C5 amended: `emit` invokes handlers in registration order up to
and including the first failing handler; the handlers registered after
it are skipped for that event and the exception propagates out of the
dispatch. -/
theorem handler_failure_stops_emit {α : Type} (fails : α → Bool)
    (pre : List α) (h : α) (post : List α)
    (hpre : ∀ x ∈ pre, fails x = false) (hf : fails h = true) :
    emitRun fails (pre ++ h :: post) = (pre ++ [h], true) := by
  induction pre with
  | nil => simp [emitRun, hf]
  | cons p ps ih =>
    have hp : fails p = false := hpre p (by simp)
    simp [emitRun, hp, ih (fun x hx => hpre x (by simp [hx]))]

theorem handler_failure_stops_emit_witness :
    emitRun (fun b : Bool => b) [false, true, false]
      = ([false, true], true) :=
  handler_failure_stops_emit (fun b : Bool => b) [false] true [false]
    (by decide) rfl

/-- C8: A dispatched `Message` event whose `textContent`, lowercased
and trimmed, equals `"ping"` triggers exactly one `sendMessage` call,
targeting the originating chat identifier in `user@server` form with
text exactly `"pong!"`. -/
theorem ping_triggers_single_pong (info : MessageInfo) (t : String)
    (h : jsTrim (jsToLower t) = "ping") :
    messageHandler info (some t)
      = [⟨info.source.chat.user ++ "@" ++ info.source.chat.server,
          "pong!"⟩] := by
  have ht : t ≠ "" := by
    intro he
    rw [he] at h
    exact absurd h (by decide)
  simp [messageHandler, ht, h]

theorem ping_triggers_single_pong_witness :
    messageHandler ⟨⟨⟨"123", "s.whatsapp.net"⟩, ⟨"456", "s.whatsapp.net"⟩⟩⟩
        (some " PiNg ")
      = [⟨"123" ++ "@" ++ "s.whatsapp.net", "pong!"⟩] :=
  ping_triggers_single_pong _ " PiNg " (by decide)

end WaBot
